import Mathlib

/-!
Verification of the conversational clarification and coordination core of the
Doc-Agent repository.  The Python sources (`conversation_manager.py`,
`orchestrator.py`, `delegation_coordinator.py`, `agents/base_agent.py`) are
shallowly embedded below: pure helper functions become Lean functions, the
mutable `ConversationContext` dataclass becomes a Lean structure with explicit
state passing, and the external LLM calls become oracle parameters (functions
supplying the response text).  Machine floats in the confidence scorer are
modelled with exact rationals; the scorer only adds, multiplies and compares
small decimal constants, so the rational model agrees with the float code on
every quantity reachable here.
-/

/-- Python whitespace characters recognised by `str.strip` / `str.split`
(space, tab, newline, carriage return, vertical tab, form feed; the sources
only ever hold ASCII text). -/
def isPySpace (c : Char) : Bool :=
  c = ' ' || c = '\t' || c = '\n' || c = '\r' || c = Char.ofNat 11 || c = Char.ofNat 12

/-- Python `str.strip()` on a character list: drop whitespace at both ends. -/
def pyStripList (l : List Char) : List Char :=
  ((l.dropWhile isPySpace).reverse.dropWhile isPySpace).reverse

/-- Python `str.strip()`. -/
def pyStrip (s : String) : String :=
  ⟨pyStripList s.data⟩

/-- Python `str.lower()` (ASCII, which covers every literal in the sources). -/
def pyLower (s : String) : String :=
  ⟨s.data.map Char.toLower⟩

/-- Python substring test `needle in hay` on character lists. -/
def listContains (needle : List Char) : List Char → Bool
  | [] => needle.isEmpty
  | c :: rest => needle.isPrefixOf (c :: rest) || listContains needle rest

/-- Python `pat in hay` for strings. -/
def containsStr (hay pat : String) : Bool :=
  listContains pat.data hay.data

/-- Python `hay.startswith(pre)`. -/
def strStartsWith (s pre : String) : Bool :=
  pre.data.isPrefixOf s.data

/-- Python `any(p in hay for p in pats)`. -/
def hasAnyOf (hay : String) (pats : List String) : Bool :=
  pats.any (fun p => containsStr hay p)

/-- Word count per Python `document.split()`: number of maximal runs of
non-whitespace characters. -/
def countWords : List Char → Bool → Nat
  | [], _ => 0
  | c :: rest, inWord =>
    if isPySpace c then countWords rest false
    else (if inWord then 0 else 1) + countWords rest true

/-- Python `len(document.split())`. -/
def pyWordCount (s : String) : Nat :=
  countWords s.data false

/-- Python `len(document.split(chr(10)))`: one more than the newline count. -/
def lineCount (s : String) : Nat :=
  s.data.count '\n' + 1

/-- Python truthiness of an optional string (`None` and `""` are falsy). -/
def pyTruthyStr : Option String → Bool
  | none => false
  | some s => !s.isEmpty

/-- Python truthiness of an optional string list (`None` and `[]` are falsy). -/
def pyTruthyStrList : Option (List String) → Bool
  | none => false
  | some l => !l.isEmpty

/-- One conversation-history entry, from `ConversationContext.add_exchange`
(`conversation_manager.py` line 51).  The wall-clock `timestamp` field is not
modelled; no modelled code reads it. -/
structure Exchange where
  agent : String
  question : String
  answer : String
deriving DecidableEq

/-- The `ConversationContext` dataclass (`conversation_manager.py` lines
11-31).  `gathered_info` is a Python `dict`; it is modelled as an
insertion-ordered association list with unique keys maintained by
`updateInfo`. -/
structure ConversationContext where
  user_request : String
  conversation_history : List Exchange
  gathered_info : List (String × String)
  clarification_round : Nat
  max_clarification_rounds : Nat
  confidence_score : ℚ
  code_directory : Option String
  input_files : Option (List String)
  last_questions : List String
  empty_response_count : Nat
  max_empty_responses : Nat
  critique_iterations : Nat
  max_critique_iterations : Nat
  enable_self_critique : Bool
deriving DecidableEq

/-- A freshly constructed `ConversationContext(user_request=..., code_directory=...,
input_files=...)` with the dataclass defaults (`conversation_manager.py`
lines 14-31; the `__post_init__` clamps are no-ops on these defaults). -/
def initialContext (userRequest : String) (codeDirectory : Option String)
    (inputFiles : Option (List String)) : ConversationContext :=
  { user_request := userRequest
    conversation_history := []
    gathered_info := []
    clarification_round := 0
    max_clarification_rounds := 3
    confidence_score := 0
    code_directory := codeDirectory
    input_files := inputFiles
    last_questions := []
    empty_response_count := 0
    max_empty_responses := 2
    critique_iterations := 0
    max_critique_iterations := 2
    enable_self_critique := true }

/-- `ConversationContext.update_info` (`conversation_manager.py` lines 60-62):
Python dict assignment `self.gathered_info[key] = value` — overwrite in place
if the key exists, else append. -/
def updateInfo (m : List (String × String)) (k v : String) : List (String × String) :=
  if m.any (fun p => p.1 == k) then m.map (fun p => if p.1 == k then (k, v) else p)
  else m ++ [(k, v)]

/-- The filler values rejected by the confidence scorer
(`conversation_manager.py` line 357). -/
def fillerValues : List String := ["none", "n/a", "unknown"]

/-- The outer guard of the fact loop in `_calculate_confidence` line 357:
`value and str(value).strip() and str(value).lower() not in [...]`. -/
def factCounted (v : String) : Bool :=
  !v.isEmpty && !(pyStrip v).isEmpty && !(fillerValues.contains (pyLower v))

/-- Numerator contribution of one counted fact (`_calculate_confidence`
lines 359-364): 1.0 when the stripped length is at least 5, plus a 0.3 bonus
when it exceeds 50; otherwise 0. -/
def factValueScore (v : String) : ℚ :=
  if 5 ≤ (pyStrip v).length then (if 50 < (pyStrip v).length then 13/10 else 1) else 0

/-- The fact loop of `_calculate_confidence` lines 355-365: returns
(`score`, `total_possible`).  The Python loop folds over the dict values in
insertion order; addition of rationals is commutative and associative, so the
right fold below computes the same sums. -/
def confidenceTally : List String → ℚ × Nat
  | [] => (0, 0)
  | v :: rest =>
    let t := confidenceTally rest
    if factCounted v then (t.1 + factValueScore v, t.2 + 1) else t

/-- `ConversationalOrchestrator._calculate_confidence`
(`conversation_manager.py` lines 338-393), with `self.context` passed
explicitly.  Every float constant is carried exactly as a rational. -/
def calcConfidence (c : ConversationContext) : ℚ :=
  let tally := confidenceTally (c.gathered_info.map Prod.snd)
  let score := tally.1
  let total : ℚ := (tally.2 : ℚ)
  let info_score : ℚ := if 0 < total then score / max total 1 else 0
  let quality_exchanges : Nat :=
    (c.conversation_history.filter (fun e => 20 < (pyStrip e.answer).length)).length
  let conversation_bonus : ℚ :=
    if c.conversation_history.isEmpty then 0
    else min ((quality_exchanges : ℚ) * (1/10)) (1/4)
  let round_penalty : ℚ :=
    if 2 < c.clarification_round && c.gathered_info.isEmpty then
      (1/5) * ((c.clarification_round : ℚ) - 2)
    else 0
  let spam_penalty : ℚ := (c.empty_response_count : ℚ) * (3/20)
  max 0 (min 1 ((7/10) * info_score + conversation_bonus - round_penalty - spam_penalty))

/-- The proceed decision of `_analyze_and_clarify` (`conversation_manager.py`
lines 309-336): true exactly when one of the four termination rules fires, in
the source's order — high confidence, round cap, empty-response cap, or
limited progress after two rounds (`not gathered_info or len(...) < 2` is
equivalent to `len(...) < 2`). -/
def analyzeProceeds (c : ConversationContext) : Bool :=
  decide (7/10 ≤ calcConfidence c) ||
  decide (c.max_clarification_rounds ≤ c.clarification_round) ||
  decide (c.max_empty_responses ≤ c.empty_response_count) ||
  (decide (2 ≤ c.clarification_round) && decide (c.gathered_info.length < 2))

/-- The context-adaptive fallback questions of `_ask_basic_questions`
(`conversation_manager.py` lines 482-516), before the final `[:3]` cap. -/
def buildAdaptiveQuestions (c : ConversationContext) : List String :=
  let keys := c.gathered_info.map Prod.fst
  let qs : List String := []
  let qs := if !keys.contains "application_type" then
      qs ++ ["What type of application is this? (e.g., web app, mobile app, API, microservices)"]
    else qs
  let qs := if !keys.contains "document_types" && !keys.contains "document_type" then
      qs ++ ["What documentation do you need? (e.g., BRD, FRD, API docs, deployment guide)"]
    else qs
  let qs := if !keys.contains "key_features" && !keys.contains "features" then
      qs ++ ["What are the main features or capabilities of this application?"]
    else qs
  let qs := if !keys.contains "stakeholders" && qs.length < 3 then
      qs ++ ["Who are the primary users or stakeholders?"]
    else qs
  let qs := if !keys.contains "technical_stack" && !keys.contains "tech_stack" && qs.length < 3 then
      (if pyTruthyStr c.code_directory || pyTruthyStrList c.input_files then
        qs ++ ["Any specific technical requirements or constraints we should document?"]
      else
        qs ++ ["What technologies or platforms does this use?"])
    else qs
  if qs.length < 2 then
    ["Can you provide more details about your documentation needs?",
     "What specific aspects should the documentation cover?",
     "Are there any particular requirements or constraints?"]
  else qs

/-- The state effects of one question round: `_ask_intelligent_questions`
(`conversation_manager.py` lines 395-475) increments `clarification_round`
(line 401) and then stores `questions[:3]` (line 457); on parse failure
(`parsed = none`) it falls back to `_ask_basic_questions`, which stores
`adaptive_questions[:3]` (line 519) without incrementing again. -/
def askQuestionsStep (c : ConversationContext) (parsed : Option (List String)) :
    ConversationContext :=
  let c := { c with clarification_round := c.clarification_round + 1 }
  match parsed with
  | some qs => { c with last_questions := qs.take 3 }
  | none => { c with last_questions := (buildAdaptiveQuestions c).take 3 }

/-- The orchestrator's pre-population of the conversation context from
dispatcher insights (`orchestrator.py` lines 153-155): when the parsed
dispatch record carries a truthy `clarification_questions` list it is copied
into `last_questions` verbatim. -/
def prepopulateLastQuestions (c : ConversationContext)
    (clarificationQuestions : List String) : ConversationContext :=
  if !clarificationQuestions.isEmpty then
    { c with last_questions := clarificationQuestions }
  else c

/-- The disengagement phrases of `process_user_response`
(`conversation_manager.py` line 560). -/
def unhelpfulPatterns : List String :=
  ["idk", "i don\x27t know", "dunno", "skip", "pass", "whatever", "n/a", "none"]

/-- Line 561: `any(pattern in response_clean.lower() for pattern in
unhelpful_patterns) and len(response_clean) < 20`. -/
def unhelpfulDetected (clean : String) : Bool :=
  unhelpfulPatterns.any (fun p => listContains p.data (pyLower clean).data) &&
    clean.length < 20

/-- `_get_last_questions` (`conversation_manager.py` lines 702-711). -/
def getLastQuestions (c : ConversationContext) : List String :=
  if !c.last_questions.isEmpty then c.last_questions
  else
    match c.conversation_history.getLast? with
    | some e => ((e.question.split (fun ch => ch = ';')).map pyStrip).filter
        (fun q => !q.isEmpty)
    | none => []

/-- Python `"; ".join(qs)`. -/
def joinQuestions (qs : List String) : String :=
  String.intercalate "; " qs

/-- The spam-detection step of `process_user_response` (lines 559-566):
increment `empty_response_count` on an unhelpful short answer, reset it to 0
otherwise. -/
def spamCheckStep (c : ConversationContext) (clean : String) : ConversationContext :=
  if unhelpfulDetected clean then
    { c with empty_response_count := c.empty_response_count + 1 }
  else
    { c with empty_response_count := 0 }

/-- Lines 568-574: append the question/answer exchange to the history. -/
def addExchangeStep (c : ConversationContext) (userResponse : String) : ConversationContext :=
  { c with conversation_history :=
      c.conversation_history ++ [⟨"System", joinQuestions (getLastQuestions c), userResponse⟩] }

/-- The fact-merge step of `process_user_response` (lines 595-603).
`extracted = some info` models a successful `_extract_json_from_response`
(the loop keeps only truthy, i.e. non-empty, values); `extracted = none`
models the `except` path, which stores the raw answer under
`latest_response`. -/
def mergeExtraction (c : ConversationContext) (userResponse : String)
    (extracted : Option (List (String × String))) : ConversationContext :=
  match extracted with
  | some info =>
    info.foldl
      (fun acc kv =>
        if !kv.2.isEmpty then { acc with gathered_info := updateInfo acc.gathered_info kv.1 kv.2 }
        else acc)
      c
  | none => { c with gathered_info := updateInfo c.gathered_info "latest_response" userResponse }

/-- Control outcome of `process_user_response`: force generation, re-ask the
stored questions, or fall through to `_analyze_and_clarify`. -/
inductive ProcessOutcome where
  | proceedWithGeneration : ProcessOutcome
  | needsClarification : Nat → List String → ProcessOutcome
  | continueConversation : ProcessOutcome
deriving DecidableEq

/-- `ConversationalOrchestrator.process_user_response`
(`conversation_manager.py` lines 532-608), with the two LLM calls abstracted:
`extracted` is the analyst's parsed extraction result.  The leading guard
`not response_clean or len(response_clean) < 3` is equivalent to
`len(response_clean) < 3`. -/
def processUserResponse (c : ConversationContext) (userResponse : String)
    (extracted : Option (List (String × String))) : ProcessOutcome × ConversationContext :=
  let clean := pyStrip userResponse
  if clean.length < 3 then
    let c1 := { c with empty_response_count := c.empty_response_count + 1 }
    if c.max_empty_responses ≤ c1.empty_response_count then
      (ProcessOutcome.proceedWithGeneration, c1)
    else
      (ProcessOutcome.needsClarification c1.clarification_round c1.last_questions, c1)
  else
    (ProcessOutcome.continueConversation,
      mergeExtraction (addExchangeStep (spamCheckStep c clean) userResponse) userResponse extracted)

/-- The quality record built by
`DocumentationOrchestrator._assess_document_quality` (`orchestrator.py` lines
452-512). -/
structure QualityAssessment where
  confidence : String
  flags : List String
  issues : List String
  word_count : Nat
  has_sections : Bool
  completeness_score : ℚ
deriving DecidableEq

/-- Section indicators of `_assess_document_quality` line 476. -/
def sectionIndicators : List String :=
  ["#", "##", "###", "Introduction", "Overview", "Requirements", "Conclusion"]

/-- Error indicators of `_assess_document_quality` line 485. -/
def errorIndicators : List String :=
  ["Error:", "Failed:", "not available", "not found", "Exception"]

/-- Placeholder markers of `_assess_document_quality` line 492. -/
def placeholderMarkers : List String :=
  ["TODO", "TBD", "[Insert", "[Add", "PLACEHOLDER"]

/-- Line 501: `len([s for s in section_indicators if s in document])`. -/
def countSectionIndicators (document : String) : Nat :=
  (sectionIndicators.filter (fun p => containsStr document p)).length

/-- The five completeness factors of `_assess_document_quality` lines
498-504. -/
def completenessFactors (document : String) : List Bool :=
  [decide (1000 ≤ pyWordCount document),
   hasAnyOf document sectionIndicators,
   decide (3 ≤ countSectionIndicators document),
   containsStr (pyLower document) "requirements" ||
     containsStr (pyLower document) "specification",
   decide (20 ≤ lineCount document)]

/-- Line 505: `completeness_score = sum(factors) / len(factors)`. -/
def completenessScore (document : String) : ℚ :=
  (((completenessFactors document).count true : Nat) : ℚ) /
    (((completenessFactors document).length : Nat) : ℚ)

/-- Initial assessment dict (`_assess_document_quality` lines 457-464). -/
def qaInit (document : String) : QualityAssessment :=
  { confidence := "high"
    flags := []
    issues := []
    word_count := pyWordCount document
    has_sections := false
    completeness_score := 0 }

/-- Document-length rule (lines 467-473). -/
def qaLengthRule (a : QualityAssessment) : QualityAssessment :=
  if a.word_count < 500 then
    { a with
      confidence := "low"
      flags := a.flags ++ ["low_confidence"]
      issues := a.issues ++ ["Document too short (< 500 words)"] }
  else if a.word_count < 1000 then
    { a with
      confidence := "medium"
      issues := a.issues ++ ["Document relatively short (< 1000 words)"] }
  else a

/-- Standard-sections rule (lines 476-482). -/
def qaSectionsRule (document : String) (a : QualityAssessment) : QualityAssessment :=
  let hs := hasAnyOf document sectionIndicators
  let a := { a with has_sections := hs }
  if !hs then
    { a with
      confidence := "low"
      flags := a.flags ++ ["low_confidence"]
      issues := a.issues ++ ["Missing standard document sections"] }
  else a

/-- Error-indicator rule (lines 485-489). -/
def qaErrorRule (document : String) (a : QualityAssessment) : QualityAssessment :=
  if hasAnyOf document errorIndicators then
    { a with
      confidence := "low"
      flags := a.flags ++ ["low_confidence"]
      issues := a.issues ++ ["Document contains error messages"] }
  else a

/-- Placeholder rule (lines 492-495).  Note that it assigns
`confidence = "medium"` unconditionally, even when an earlier rule already
set `"low"`. -/
def qaPlaceholderRule (document : String) (a : QualityAssessment) : QualityAssessment :=
  if hasAnyOf document placeholderMarkers then
    { a with
      confidence := "medium"
      issues := a.issues ++ ["Document contains placeholder text"] }
  else a

/-- Completeness rule (lines 497-510).  The source formats the score into the
issue text with `%.2f`; the numeric suffix of that message is elided here (no
modelled code reads it). -/
def qaCompletenessRule (document : String) (a : QualityAssessment) : QualityAssessment :=
  let comp := completenessScore document
  let a := { a with completeness_score := comp }
  if comp < 1/2 then
    { a with
      confidence := "low"
      flags := a.flags ++ ["low_confidence"]
      issues := a.issues ++ ["Low completeness score"] }
  else a

/-- `DocumentationOrchestrator._assess_document_quality` (`orchestrator.py`
lines 452-512): the five rules applied in source order to the initial
assessment.  The `doc_type` and `context` parameters of the source are unused
by its body and are omitted. -/
def assessDocumentQuality (document : String) : QualityAssessment :=
  qaCompletenessRule document
    (qaPlaceholderRule document
      (qaErrorRule document
        (qaSectionsRule document
          (qaLengthRule (qaInit document)))))

/-- Outcome of the underlying `self.agent.run(...)` call inside
`BaseAgent.execute_async`: a normal response or a raised exception with a
message. -/
inductive RunOutcome where
  | ok : String → RunOutcome
  | raises : String → RunOutcome
deriving DecidableEq

/-- True when `execute_async` is on a failure path: SDK unavailable, agent
not registered, or the underlying run raised. -/
def isBoundaryFailure (sdkAvailable registered : Bool) (run : RunOutcome) : Bool :=
  !sdkAvailable || !registered ||
    (match run with | RunOutcome.raises _ => true | RunOutcome.ok _ => false)

/-- `BaseAgent.execute_async` (`agents/base_agent.py` lines 338-369) with the
context-formatting prefix elided (it only alters the prompt sent out, not the
error behaviour): each failure mode returns an in-band error string instead
of raising. -/
def executeAsync (sdkAvailable registered : Bool) (name : String) (run : RunOutcome) : String :=
  if !sdkAvailable then
    "Error: Microsoft Agent Framework not available for " ++ name
  else if !registered then
    "Error: " ++ name ++ " not registered. Call register_agent() first."
  else
    match run with
    | RunOutcome.ok r => r
    | RunOutcome.raises m => "Error in " ++ name ++ ": " ++ m

/-- The code-input part of the context dict handed to
`DelegationCoordinator.coordinate` (`delegation_coordinator.py` line 87). -/
structure CoordinationContext where
  code_directory : Option String
  input_files : Option (List String)
deriving DecidableEq

/-- Phase 2 launch condition (`delegation_coordinator.py` line 159):
`context.get('code_directory') or context.get('input_files')` under Python
truthiness. -/
def launchesResearcher (ctx : CoordinationContext) : Bool :=
  pyTruthyStr ctx.code_directory || pyTruthyStrList ctx.input_files

/-- The fixed Phase 2 placeholder (`delegation_coordinator.py` line 170). -/
def noCodePlaceholder : String := "No code provided for analysis"

/-- Spec-side reading of the launch condition, for refinement comparison with
`launchesResearcher`: code input was supplied, i.e. a non-empty code
directory or a non-empty input-file list was given. -/
def specCodeInputSupplied (ctx : CoordinationContext) : Bool :=
  (match ctx.code_directory with | some d => !d.isEmpty | none => false) ||
  (match ctx.input_files with | some l => !l.isEmpty | none => false)

/-- Phase 2 join (`delegation_coordinator.py` lines 166-171): the pair
(`requirements`, `code_analysis`) available when Phase 3 starts.  When the
researcher was not launched the placeholder is substituted; otherwise the
researcher's response is used as-is. -/
def phase2Results (ctx : CoordinationContext) (analystResponse researcherResponse : String) :
    String × String :=
  (analystResponse,
   if launchesResearcher ctx then researcherResponse else noCodePlaceholder)

/-- The Phase 3 synthesis prompt (`delegation_coordinator.py` lines 177-191),
an f-string concatenation of the request, dispatch output and both Phase 2
results. -/
def writerPrompt (request dispatchResult requirements codeAnalysis : String) : String :=
  "Generate comprehensive documentation based on:\n\n=== USER REQUEST ===\n" ++ request ++
  "\n\n=== DISPATCH ANALYSIS ===\n" ++ dispatchResult ++
  "\n\n=== REQUIREMENTS (from Analyst) ===\n" ++ requirements ++
  "\n\n=== CODE ANALYSIS (from Researcher) ===\n" ++ codeAnalysis ++
  "\n\nGenerate complete, well-structured documentation in Markdown format."

/-- The Phase 3 prompt as actually built in `coordinate`: Phase 2 joins first,
then both results feed the writer prompt. -/
def phase3WriterPrompt (ctx : CoordinationContext)
    (request dispatchResult analystResponse researcherResponse : String) : String :=
  let results := phase2Results ctx analystResponse researcherResponse
  writerPrompt request dispatchResult results.1 results.2

/-- One generation result as read by the self-critique loop
(`conversation_manager.py` lines 639-699): `flags` models
`result.get("flags", [])` and `confidence` models
`result.get('quality', {}).get('confidence')`. -/
structure GenResult where
  flags : List String
  confidence : String
deriving DecidableEq

/-- The recursion skeleton of
`ConversationalOrchestrator._proceed_with_generation`
(`conversation_manager.py` lines 610-700).  `gen i` is the result of the
i-th call to `generate_documentation_async` in the whole run (call indices
are global so that the calls can be counted); `iters` is
`context.critique_iterations`, which persists across the recursion.  The
function returns the next unused call index paired with the returned result:
one unconditional generation at the top (line 633), then — when self-critique
is enabled, the result carries the `low_confidence` flag and the iteration
cap is not yet reached (lines 640-642) — one regeneration with critique
feedback (line 683), and a recursive call (line 696) when the regenerated
document is still low-confidence and rounds remain. -/
def proceedWithGenerationRun (gen : Nat → GenResult) (enable : Bool) (maxIters : Nat) :
    Nat → Nat → Nat × GenResult
  | iters, k =>
    if h : enable = true ∧ (gen k).flags.contains "low_confidence" = true ∧ iters < maxIters then
      if (gen (k + 1)).confidence ≠ "low" then (k + 2, gen (k + 1))
      else if iters + 1 < maxIters then
        proceedWithGenerationRun gen enable maxIters (iters + 1) (k + 2)
      else (k + 2, gen (k + 1))
    else (k + 1, gen k)
  termination_by iters _ => maxIters - iters
  decreasing_by omega

/-- Total number of `generate_documentation_async` calls issued by
`_proceed_with_generation` from a fresh context (`critique_iterations = 0`). -/
def selfCritiqueTotalCalls (gen : Nat → GenResult) (enable : Bool) (maxIters : Nat) : Nat :=
  (proceedWithGenerationRun gen enable maxIters 0 0).1

/-- A run in which every generated document is low-confidence. -/
def allLowGen : Nat → GenResult :=
  fun _ => { flags := ["low_confidence"], confidence := "low" }

/-- A 60-character fact value: long enough to earn the 0.3 detail bonus of
the confidence scorer. -/
def exBonusFact : String :=
  "aaaaaaaaaaaaaaaaaaaaaaaaaaaaaaaaaaaaaaaaaaaaaaaaaaaaaaaaaaaa"

/-- A reachable conversation state holding one bonus-earning fact. -/
def exContextWithBonus : ConversationContext :=
  { initialContext "req" none none with gathered_info := [("a", exBonusFact)] }

/-- A short document (23 words) that contains heading markers, the word
Requirements, 21 lines and the placeholder marker TODO. -/
def exDocShortTodo : String :=
  "### Requirements TODO\nw\nw\nw\nw\nw\nw\nw\nw\nw\nw\nw\nw\nw\nw\nw\nw\nw\nw\nw\nw"

/-- A conversation state with one prior empty response on record. -/
def exContextOneEmpty : ConversationContext :=
  { initialContext "docs" none none with empty_response_count := 1 }

/-- A family of low-confidence conversation states used to exercise the
clarification state machine: round index `k`, two facts whose values are too
short to score. -/
def exLowConfStates (k : Nat) : ConversationContext :=
  { initialContext "r" none none with
    clarification_round := k
    gathered_info := [("a", "ab"), ("b", "cd")] }

/-- The critique-storage step of `_proceed_with_generation`
(`conversation_manager.py` lines 644 and 680): the iteration counter is
incremented and the editor's critique text is then stored verbatim under
`critique_iteration_{n}` via `update_info` — with no emptiness or whitespace
check of any kind. -/
def storeCritiqueStep (c : ConversationContext) (critique : String) : ConversationContext :=
  let c1 := { c with critique_iterations := c.critique_iterations + 1 }
  let key := "critique_iteration_" ++ toString c1.critique_iterations
  { c1 with gathered_info := updateInfo c1.gathered_info key critique }

/-!  Helper lemmas. -/

/-- Clamping to [0,1] is monotone. -/
theorem clampMono {x y : ℚ} (h : x ≤ y) : max 0 (min 1 x) ≤ max 0 (min 1 y) :=
  max_le_max le_rfl (min_le_min le_rfl h)

/-- A fact's numerator contribution is non-negative. -/
theorem factValueScore_nonneg (v : String) : 0 ≤ factValueScore v := by
  unfold factValueScore; split_ifs <;> norm_num

/-- Without the detail bonus, a fact contributes at most 1. -/
theorem factValueScore_le_one (v : String) (h : (pyStrip v).length ≤ 50) :
    factValueScore v ≤ 1 := by
  unfold factValueScore; split_ifs <;> first | omega | norm_num

/-- A value of stripped length in [5, 50] contributes exactly 1. -/
theorem factValueScore_eq_one (v : String) (h5 : 5 ≤ (pyStrip v).length)
    (h50 : (pyStrip v).length ≤ 50) : factValueScore v = 1 := by
  unfold factValueScore
  rw [if_pos h5, if_neg (by omega)]

/-- A non-filler value with at least 5 stripped characters passes the
counting guard. -/
theorem factCounted_of_substantive (v : String) (h5 : 5 ≤ (pyStrip v).length)
    (hf : fillerValues.contains (pyLower v) = false) : factCounted v = true := by
  have hs : (pyStrip v) ≠ "" := by
    intro he
    rw [he] at h5
    simp at h5
  have hv : v ≠ "" := by
    intro he
    subst he
    have h0 : pyStrip "" = "" := by decide
    rw [h0] at h5
    simp at h5
  have hf' : pyLower v ∉ fillerValues := by simpa using hf
  simp [factCounted, String.isEmpty_iff, Bool.eq_false_iff, hs, hv, hf']

/-- The running score of the fact loop is non-negative. -/
theorem confidenceTally_nonneg (vs : List String) : 0 ≤ (confidenceTally vs).1 := by
  induction vs with
  | nil => simp [confidenceTally]
  | cons v rest ih =>
    simp only [confidenceTally]
    split
    · exact add_nonneg ih (factValueScore_nonneg v)
    · exact ih

/-- When no counted fact earns the detail bonus, the numerator is at most
the denominator. -/
theorem confidenceTally_le_count (vs : List String)
    (h : ∀ v ∈ vs, (pyStrip v).length ≤ 50) :
    (confidenceTally vs).1 ≤ ((confidenceTally vs).2 : ℚ) := by
  induction vs with
  | nil => simp [confidenceTally]
  | cons v rest ih =>
    have hv := h v (List.mem_cons_self v rest)
    have ihr := ih (fun w hw => h w (List.mem_cons_of_mem v hw))
    simp only [confidenceTally]
    split
    · push_cast
      exact add_le_add ihr (factValueScore_le_one v hv)
    · exact ihr

/-- Appending one counted fact adds its score to the numerator and 1 to the
denominator. -/
theorem confidenceTally_append_counted (vs : List String) (v : String)
    (hc : factCounted v = true) :
    confidenceTally (vs ++ [v]) =
      ((confidenceTally vs).1 + factValueScore v, (confidenceTally vs).2 + 1) := by
  induction vs with
  | nil => simp [confidenceTally, hc]
  | cons w rest ih =>
    simp only [List.cons_append, confidenceTally]
    cases h : factCounted w <;> simp [h, Prod.ext_iff] <;>
      refine ⟨by simp [ih]; try ring, by simp [ih]; try omega⟩

/-- With a fresh key, `update_info` appends the new pair. -/
theorem updateInfo_fresh (m : List (String × String)) (k v : String)
    (h : ∀ p ∈ m, p.1 ≠ k) : updateInfo m k v = m ++ [(k, v)] := by
  have hna : ¬ (m.any (fun p => p.1 == k) = true) := by
    simp only [List.any_eq_true, beq_iff_eq, not_exists, not_and]
    exact h
  unfold updateInfo
  rw [if_neg hna]

/-- Unfolded form of the confidence scorer (definitional). -/
theorem calcConfidence_eq (c : ConversationContext) :
    calcConfidence c =
      max 0 (min 1
        ((7/10) *
          (if 0 < ((confidenceTally (c.gathered_info.map Prod.snd)).2 : ℚ) then
            (confidenceTally (c.gathered_info.map Prod.snd)).1 /
              max ((confidenceTally (c.gathered_info.map Prod.snd)).2 : ℚ) 1
          else 0)
        + (if c.conversation_history.isEmpty then 0
           else min
             (((c.conversation_history.filter
                 (fun e => 20 < (pyStrip e.answer).length)).length : ℚ) * (1/10)) (1/4))
        - (if 2 < c.clarification_round && c.gathered_info.isEmpty then
             (1/5) * ((c.clarification_round : ℚ) - 2)
           else 0)
        - (c.empty_response_count : ℚ) * (3/20))) := rfl

/-- The round penalty subterm of the scorer is non-negative. -/
theorem roundPenalty_nonneg (c : ConversationContext) :
    0 ≤ (if 2 < c.clarification_round && c.gathered_info.isEmpty then
            (1/5) * ((c.clarification_round : ℚ) - 2)
         else 0) := by
  split_ifs with h
  · rw [Bool.and_eq_true] at h
    have h2 : 2 < c.clarification_round := of_decide_eq_true h.1
    have h2q : (2 : ℚ) < (c.clarification_round : ℚ) := by exact_mod_cast h2
    nlinarith
  · exact le_rfl

/-- C1 (amended): adding one more substantive fact (stripped length in
[5, 50], not a filler value) under a fresh key never decreases the confidence
score, PROVIDED no already-stored fact value has stripped length above 50
(i.e. no existing fact earned the 0.3 detail bonus).  Without that proviso
the original claim is false — see the counterexample. -/
theorem claim1_confidence_monotone_amended
    (c : ConversationContext) (k v : String)
    (hfresh : ∀ p ∈ c.gathered_info, p.1 ≠ k)
    (hnobonus : ∀ p ∈ c.gathered_info, (pyStrip p.2).length ≤ 50)
    (hlen5 : 5 ≤ (pyStrip v).length)
    (hlen50 : (pyStrip v).length ≤ 50)
    (hfiller : fillerValues.contains (pyLower v) = false) :
    calcConfidence c ≤
      calcConfidence { c with gathered_info := updateInfo c.gathered_info k v } := by
  have hupd : updateInfo c.gathered_info k v = c.gathered_info ++ [(k, v)] :=
    updateInfo_fresh _ _ _ hfresh
  have hrw : ({ c with gathered_info := updateInfo c.gathered_info k v } :
      ConversationContext) = { c with gathered_info := c.gathered_info ++ [(k, v)] } := by
    rw [hupd]
  rw [hrw]
  have hcount : factCounted v = true := factCounted_of_substantive v hlen5 hfiller
  have hone : factValueScore v = 1 := factValueScore_eq_one v hlen5 hlen50
  rw [calcConfidence_eq, calcConfidence_eq]
  dsimp only
  rw [List.map_append]
  dsimp only [List.map]
  rw [confidenceTally_append_counted _ v hcount, hone]
  apply clampMono
  set S := (confidenceTally (c.gathered_info.map Prod.snd)).1 with hSdef
  set T := (confidenceTally (c.gathered_info.map Prod.snd)).2 with hTdef
  have hS0 : 0 ≤ S := confidenceTally_nonneg _
  have hST : S ≤ (T : ℚ) := by
    apply confidenceTally_le_count
    intro w hw
    rcases List.mem_map.1 hw with ⟨p, hp, hpw⟩
    rw [← hpw]
    exact hnobonus p hp
  dsimp only
  have hne : (c.gathered_info ++ [(k, v)]).isEmpty = false := by
    cases c.gathered_info <;> simp
  rw [hne]
  simp only [Bool.and_false, Bool.false_eq_true, if_false]
  have hrp := roundPenalty_nonneg c
  have hinfo :
      (if 0 < (T : ℚ) then S / ((T : ℚ) ⊔ 1) else 0) ≤
        (if 0 < ((T + 1 : Nat) : ℚ) then (S + 1) / (((T + 1 : Nat) : ℚ) ⊔ 1) else 0) := by
    have hTp : (0 : ℚ) < ((T + 1 : Nat) : ℚ) := by push_cast; positivity
    have hTge : (0 : ℚ) ≤ (T : ℚ) := Nat.cast_nonneg T
    have hmax1 : ((T + 1 : Nat) : ℚ) ⊔ 1 = (T : ℚ) + 1 := by
      push_cast
      rw [sup_eq_left.2 (by linarith)]
    rw [if_pos hTp, hmax1]
    rcases Nat.eq_zero_or_pos T with h0 | hpos
    · rw [h0]
      norm_num
      linarith [hS0]
    · have h1T : (1 : ℚ) ≤ (T : ℚ) := by exact_mod_cast hpos
      have h0T : (0 : ℚ) < (T : ℚ) := by linarith
      rw [if_pos h0T, sup_eq_left.2 h1T]
      rw [div_le_div_iff₀ h0T (by linarith)]
      nlinarith [hST]
  have hmul : (7/10 : ℚ) * (if 0 < (T : ℚ) then S / ((T : ℚ) ⊔ 1) else 0) ≤
      (7/10 : ℚ) * (if 0 < ((T + 1 : Nat) : ℚ) then (S + 1) / (((T + 1 : Nat) : ℚ) ⊔ 1) else 0) :=
    mul_le_mul_of_nonneg_left hinfo (by norm_num)
  linarith [hrp]

/-- One unfolding step of the fact loop (definitional). -/
theorem confidenceTally_cons (v : String) (rest : List String) :
    confidenceTally (v :: rest) =
      if factCounted v then
        ((confidenceTally rest).1 + factValueScore v, (confidenceTally rest).2 + 1)
      else confidenceTally rest := rfl

/-- C1 (counterexample): the claim as stated is false.  The state holding one
bonus-earning fact (60 characters) scores 0.91; adding the substantive
10-character fact "abcdefghij" (stripped length in [5, 50], not a filler)
drops the score to 0.805, because the new fact adds 1 to the denominator but
cannot match the inflated 1.3 numerator share of the bonus fact. -/
theorem claim1_counterexample :
    5 ≤ (pyStrip "abcdefghij").length ∧ (pyStrip "abcdefghij").length ≤ 50 ∧
    fillerValues.contains (pyLower "abcdefghij") = false ∧
    (∀ p ∈ exContextWithBonus.gathered_info, p.1 ≠ "b") ∧
    calcConfidence { exContextWithBonus with
        gathered_info := updateInfo exContextWithBonus.gathered_info "b" "abcdefghij" } <
      calcConfidence exContextWithBonus := by
  refine ⟨by decide, by decide, by decide, by decide, ?_⟩
  have ht1 : confidenceTally ["abcdefghij"] = (1, 1) := by
    rw [confidenceTally_cons, if_pos (by decide : factCounted "abcdefghij" = true),
      factValueScore_eq_one "abcdefghij" (by decide) (by decide)]
    norm_num [confidenceTally]
  have hb : factValueScore exBonusFact = 13/10 := by
    unfold factValueScore
    rw [if_pos (by decide), if_pos (by decide)]
  have hA : calcConfidence exContextWithBonus = 91/100 := by
    rw [calcConfidence_eq]
    have h1 : confidenceTally (exContextWithBonus.gathered_info.map Prod.snd) = (13/10, 1) := by
      show confidenceTally [exBonusFact] = _
      rw [confidenceTally_cons, if_pos (by decide : factCounted exBonusFact = true), hb]
      norm_num [confidenceTally]
    rw [h1]
    norm_num [exContextWithBonus, initialContext]
  have hupd : updateInfo exContextWithBonus.gathered_info "b" "abcdefghij" =
      [("a", exBonusFact), ("b", "abcdefghij")] := by decide
  have hB : calcConfidence { exContextWithBonus with
      gathered_info := updateInfo exContextWithBonus.gathered_info "b" "abcdefghij" } =
      161/200 := by
    rw [calcConfidence_eq]
    have h2 : confidenceTally (({ exContextWithBonus with
        gathered_info := updateInfo exContextWithBonus.gathered_info "b" "abcdefghij" } :
        ConversationContext).gathered_info.map Prod.snd) = (23/10, 2) := by
      rw [show ({ exContextWithBonus with
          gathered_info := updateInfo exContextWithBonus.gathered_info "b" "abcdefghij" } :
          ConversationContext).gathered_info = [("a", exBonusFact), ("b", "abcdefghij")] from hupd]
      show confidenceTally [exBonusFact, "abcdefghij"] = _
      rw [confidenceTally_cons, if_pos (by decide : factCounted exBonusFact = true), hb, ht1]
      norm_num
    rw [h2]
    norm_num [exContextWithBonus, initialContext]
  rw [hA, hB]
  norm_num

/-- C1 (witness): the amended monotonicity theorem applied to the empty fresh
context and the substantive fact "web application". -/
theorem claim1_witness :
    calcConfidence (initialContext "req" none none) ≤
      calcConfidence { initialContext "req" none none with
        gathered_info := updateInfo (initialContext "req" none none).gathered_info
          "application_type" "web application" } :=
  claim1_confidence_monotone_amended (initialContext "req" none none) "application_type"
    "web application" (by decide) (by decide) (by decide) (by decide) (by decide)

/-- C2 (counterexample): with the default cap `max_critique_iterations = 2`,
self-critique enabled and every generated document low-confidence, the
recursive loop issues 4 generation calls in total — the initial call plus 3
further regenerations — exceeding the claimed cap of at most 2 regeneration
calls.  (Each recursive re-entry of `_proceed_with_generation` performs a
fresh top-of-function generation before its critiqued regeneration.) -/
theorem claim2_counterexample :
    selfCritiqueTotalCalls allLowGen true 2 = 4 ∧
    ¬ (selfCritiqueTotalCalls allLowGen true 2 - 1 ≤ 2) := by
  have h : selfCritiqueTotalCalls allLowGen true 2 = 4 := by
    simp [selfCritiqueTotalCalls, proceedWithGenerationRun, allLowGen]
  exact ⟨h, by omega⟩

/-- Generation-call bound for the critique recursion: starting from iteration
count `iters`, at most `max 1 (2 * (maxIters - iters))` calls are issued. -/
theorem proceedCallsBound (gen : Nat → GenResult) (enable : Bool) (maxIters : Nat) :
    ∀ d iters k, maxIters - iters ≤ d →
      (proceedWithGenerationRun gen enable maxIters iters k).1 ≤
        k + max 1 (2 * (maxIters - iters)) := by
  intro d
  induction d with
  | zero =>
    intro iters k hd
    rw [proceedWithGenerationRun, dif_neg]
    · have h1 : 1 ≤ max 1 (2 * (maxIters - iters)) := le_max_left _ _
      omega
    · rintro ⟨-, -, hlt⟩
      omega
  | succ d ih =>
    intro iters k hd
    rw [proceedWithGenerationRun]
    by_cases hg : enable = true ∧ (gen k).flags.contains "low_confidence" = true ∧
        iters < maxIters
    · rw [dif_pos hg]
      have hlt := hg.2.2
      have hm : max 1 (2 * (maxIters - iters)) = 2 * (maxIters - iters) :=
        max_eq_right (by omega)
      split_ifs with h1 h2
      · omega
      · have hb := ih (iters + 1) (k + 2) (by omega)
        have hm2 : max 1 (2 * (maxIters - (iters + 1))) = 2 * (maxIters - (iters + 1)) :=
          max_eq_right (by omega)
        omega
      · omega
    · rw [dif_neg hg]
      have h1 : 1 ≤ max 1 (2 * (maxIters - iters)) := le_max_left _ _
      omega

/-- C2 (amended): the recursion always terminates, and starting from a fresh
context it issues at most `2 * max_critique_iterations` generation calls in
total (so at most `2 * max_critique_iterations - 1` regeneration calls after
the initial one), not `max_critique_iterations` regeneration calls. -/
theorem claim2_bounded_calls_amended (gen : Nat → GenResult) (enable : Bool) (maxIters : Nat) :
    selfCritiqueTotalCalls gen enable maxIters ≤ max 1 (2 * maxIters) := by
  have h := proceedCallsBound gen enable maxIters maxIters 0 0 (by omega)
  simpa [selfCritiqueTotalCalls] using h

/-- A state past the round cap always proceeds (rule 2 of
`_analyze_and_clarify`). -/
theorem analyzeProceeds_round_cap (c : ConversationContext)
    (h : c.max_clarification_rounds ≤ c.clarification_round) :
    analyzeProceeds c = true := by
  unfold analyzeProceeds
  rw [decide_eq_true h]
  simp

/-- C3: for every environment (arbitrary user answers and extraction results,
which may rewrite every field except the round counter), the clarification
engine reaches PROCEED within `max_rounds + 1` calls to
`_analyze_and_clarify`.  `states k` is the context seen by the k-th call;
a non-proceeding call increments `clarification_round` by exactly 1
(`_ask_intelligent_questions` line 401) and nothing else ever writes it. -/
theorem claim3_clarification_terminates (states : Nat → ConversationContext) (M : Nat)
    (h0 : (states 0).clarification_round = 0)
    (hM : ∀ k, (states k).max_clarification_rounds = M)
    (hstep : ∀ k, analyzeProceeds (states k) = false →
      (states (k + 1)).clarification_round = (states k).clarification_round + 1) :
    ∃ k, k ≤ M ∧ analyzeProceeds (states k) = true := by
  by_cases hall : ∀ k, k ≤ M → analyzeProceeds (states k) = false
  · have hround : ∀ k, k ≤ M → (states k).clarification_round = k := by
      intro k
      induction k with
      | zero => intro _; exact h0
      | succ n ih =>
        intro hle
        have hn : n ≤ M := Nat.le_of_succ_le hle
        rw [hstep n (hall n hn), ih hn]
    have hcap : analyzeProceeds (states M) = true := by
      apply analyzeProceeds_round_cap
      rw [hround M le_rfl, hM M]
    rw [hall M le_rfl] at hcap
    exact absurd hcap (by simp)
  · push_neg at hall
    rcases hall with ⟨k, hk, hne⟩
    exact ⟨k, hk, by simpa using hne⟩

/-- C3 (witness): the termination theorem applied to a concrete run that
stalls at low confidence for three rounds; the fourth call proceeds. -/
theorem claim3_witness :
    ∃ k, k ≤ 3 ∧ analyzeProceeds (exLowConfStates k) = true :=
  claim3_clarification_terminates exLowConfStates 3 rfl (fun _ => rfl) (fun _ _ => rfl)

/-- The sections rule cannot raise a confidence that is already low. -/
theorem qaSectionsRule_conf_low (document : String) (a : QualityAssessment)
    (hc : a.confidence = "low") : (qaSectionsRule document a).confidence = "low" := by
  unfold qaSectionsRule
  dsimp only
  split_ifs <;> simp [hc]

/-- The error rule cannot raise a confidence that is already low. -/
theorem qaErrorRule_conf_low (document : String) (a : QualityAssessment)
    (hc : a.confidence = "low") : (qaErrorRule document a).confidence = "low" := by
  unfold qaErrorRule
  split_ifs <;> simp [hc]

/-- Confidence after the placeholder rule: "medium" when a placeholder marker
is present (regardless of the previous value), unchanged otherwise. -/
theorem qaPlaceholderRule_conf (document : String) (a : QualityAssessment) :
    (qaPlaceholderRule document a).confidence =
      if hasAnyOf document placeholderMarkers then "medium" else a.confidence := by
  unfold qaPlaceholderRule
  split_ifs <;> rfl

/-- Confidence after the completeness rule: "low" when the score is below
1/2, unchanged otherwise. -/
theorem qaCompletenessRule_conf (document : String) (a : QualityAssessment) :
    (qaCompletenessRule document a).confidence =
      if completenessScore document < 1/2 then "low" else a.confidence := by
  unfold qaCompletenessRule
  dsimp only
  split_ifs <;> rfl

/-- The sections rule only appends flags. -/
theorem qaSectionsRule_flags_mem (document : String) (a : QualityAssessment) (s : String)
    (h : s ∈ a.flags) : s ∈ (qaSectionsRule document a).flags := by
  unfold qaSectionsRule
  dsimp only
  split_ifs <;> simp [h]

/-- The error rule only appends flags. -/
theorem qaErrorRule_flags_mem (document : String) (a : QualityAssessment) (s : String)
    (h : s ∈ a.flags) : s ∈ (qaErrorRule document a).flags := by
  unfold qaErrorRule
  split_ifs <;> simp [h]

/-- The placeholder rule never touches flags. -/
theorem qaPlaceholderRule_flags (document : String) (a : QualityAssessment) :
    (qaPlaceholderRule document a).flags = a.flags := by
  unfold qaPlaceholderRule
  split_ifs <;> rfl

/-- The completeness rule only appends flags. -/
theorem qaCompletenessRule_flags_mem (document : String) (a : QualityAssessment) (s : String)
    (h : s ∈ a.flags) : s ∈ (qaCompletenessRule document a).flags := by
  unfold qaCompletenessRule
  dsimp only
  split_ifs <;> simp [h]

/-- The length rule on a short document: confidence low, flag set. -/
theorem qaLengthRule_short (a : QualityAssessment) (h : a.word_count < 500) :
    (qaLengthRule a).confidence = "low" ∧ "low_confidence" ∈ (qaLengthRule a).flags := by
  unfold qaLengthRule
  rw [if_pos h]
  simp

/-- C4 (amended): every document with fewer than 500 words carries the
`low_confidence` flag, and its final confidence is "low" UNLESS a placeholder
marker is present and the completeness score is at least 1/2, in which case
the placeholder rule overwrites the confidence to "medium" — the rules are
applied sequentially, not most-severe-wins. -/
theorem claim4_short_doc_amended (document : String)
    (h : pyWordCount document < 500) :
    "low_confidence" ∈ (assessDocumentQuality document).flags ∧
    (assessDocumentQuality document).confidence =
      (if hasAnyOf document placeholderMarkers = true ∧
          ¬ completenessScore document < 1/2 then "medium" else "low") := by
  have hwc : (qaInit document).word_count < 500 := h
  constructor
  · unfold assessDocumentQuality
    apply qaCompletenessRule_flags_mem
    rw [qaPlaceholderRule_flags]
    apply qaErrorRule_flags_mem
    apply qaSectionsRule_flags_mem
    exact (qaLengthRule_short _ hwc).2
  · unfold assessDocumentQuality
    rw [qaCompletenessRule_conf, qaPlaceholderRule_conf,
      qaErrorRule_conf_low _ _ (qaSectionsRule_conf_low _ _ (qaLengthRule_short _ hwc).1)]
    split_ifs with h1 h2 h3 h3 <;> first | rfl | (exfalso; tauto)

/-- C4 (counterexample): the claim as stated is false.  This 23-word document
contains the placeholder marker TODO, heading markers and 21 lines, so the
later placeholder rule overwrites the length rule's "low" with "medium": a
document under 500 words whose final confidence is not "low". -/
theorem claim4_counterexample :
    (assessDocumentQuality exDocShortTodo).word_count < 500 ∧
    (assessDocumentQuality exDocShortTodo).confidence = "medium" := by
  have hwc : pyWordCount exDocShortTodo = 23 := by decide
  have hsec : hasAnyOf exDocShortTodo sectionIndicators = true := by decide
  have herr : hasAnyOf exDocShortTodo errorIndicators = false := by decide
  have hph : hasAnyOf exDocShortTodo placeholderMarkers = true := by decide
  have hcf : completenessFactors exDocShortTodo = [false, true, true, true, true] := by decide
  have hcs : completenessScore exDocShortTodo = 4/5 := by
    unfold completenessScore
    rw [hcf]
    norm_num
  have hns : ¬ completenessScore exDocShortTodo < 1/2 := by
    rw [hcs]
    norm_num
  constructor
  · have hw : (assessDocumentQuality exDocShortTodo).word_count = pyWordCount exDocShortTodo := by
      unfold assessDocumentQuality qaCompletenessRule qaPlaceholderRule qaErrorRule
        qaSectionsRule qaLengthRule qaInit
      dsimp only
      split_ifs <;> rfl
    rw [hw, hwc]
    omega
  · unfold assessDocumentQuality
    rw [qaCompletenessRule_conf, if_neg hns, qaPlaceholderRule_conf, if_pos hph]

/-- C4 (witness): the amended theorem applied to the one-word document
"short", which has no placeholder and completeness score 0, hence final
confidence "low" with the flag set. -/
theorem claim4_witness :
    "low_confidence" ∈ (assessDocumentQuality "short").flags ∧
    (assessDocumentQuality "short").confidence =
      (if hasAnyOf "short" placeholderMarkers = true ∧
          ¬ completenessScore "short" < 1/2 then "medium" else "low") :=
  claim4_short_doc_amended "short" (by decide)

/-- A prefix of `xs` is a prefix of `xs ++ ys`. -/
theorem isPrefixOf_append_left (p xs ys : List Char) (h : p.isPrefixOf xs = true) :
    p.isPrefixOf (xs ++ ys) = true := by
  induction p generalizing xs with
  | nil => simp [List.isPrefixOf]
  | cons a p ih =>
    cases xs with
    | nil => simp [List.isPrefixOf] at h
    | cons x xs =>
      simp only [List.cons_append, List.isPrefixOf, Bool.and_eq_true] at h ⊢
      exact ⟨h.1, ih xs h.2⟩

/-- A substring of `xs` is a substring of `xs ++ ys`. -/
theorem listContains_append_left (p xs ys : List Char) (h : listContains p xs = true) :
    listContains p (xs ++ ys) = true := by
  induction xs with
  | nil =>
    have hp : p = [] := by
      simpa [listContains, List.isEmpty_iff] using h
    subst hp
    cases ys <;> simp [listContains, List.isPrefixOf]
  | cons x xs ih =>
    rw [List.cons_append]
    simp only [listContains, Bool.or_eq_true] at h ⊢
    rcases h with h | h
    · exact Or.inl (isPrefixOf_append_left _ _ _ h)
    · exact Or.inr (ih h)

/-- String data of an append. -/
theorem strData_append (a b : String) : (a ++ b).data = a.data ++ b.data := by
  cases a
  cases b
  rfl

/-- Python `in` survives appending on the right. -/
theorem containsStr_append_left (a b pat : String) (h : containsStr a pat = true) :
    containsStr (a ++ b) pat = true := by
  unfold containsStr at h ⊢
  rw [strData_append]
  exact listContains_append_left _ _ _ h

/-- Python `startswith` survives appending on the right. -/
theorem strStartsWith_append (a b pre : String) (h : strStartsWith a pre = true) :
    strStartsWith (a ++ b) pre = true := by
  unfold strStartsWith at h ⊢
  rw [strData_append]
  exact isPrefixOf_append_left _ _ _ h

/-- C5 (amended): `execute_async` never raises — every failure path returns a
string beginning with the marker "Error" — and the failure strings of the
SDK-unavailable and not-registered paths contain the indicator "Error:", so
the QualityAssessor's error-indicator rule fires on them.  The exception-path
string "Error in NAME: MSG" contains no indicator in general (see the
counterexample), so the original claim's second half holds only for the
first two paths. -/
theorem claim5_boundary_amended (sdkAvailable registered : Bool) (name : String)
    (run : RunOutcome) (hfail : isBoundaryFailure sdkAvailable registered run = true) :
    strStartsWith (executeAsync sdkAvailable registered name run) "Error" = true ∧
    (sdkAvailable = false ∨ registered = false →
      hasAnyOf (executeAsync sdkAvailable registered name run) errorIndicators = true) := by
  cases sdkAvailable with
  | false =>
    constructor
    · exact strStartsWith_append _ name _ (by decide)
    · intro _
      simp only [hasAnyOf, List.any_eq_true]
      refine ⟨"Error:", by decide, ?_⟩
      exact containsStr_append_left _ name _ (by decide)
  | true =>
    cases registered with
    | false =>
      constructor
      · exact strStartsWith_append _ _ _ (strStartsWith_append _ name _ (by decide))
      · intro _
        simp only [hasAnyOf, List.any_eq_true]
        refine ⟨"Error:", by decide, ?_⟩
        exact containsStr_append_left _ _ _ (containsStr_append_left _ name _ (by decide))
    | true =>
      cases run with
      | ok r => simp [isBoundaryFailure] at hfail
      | raises m =>
        constructor
        · exact strStartsWith_append _ m _
            (strStartsWith_append _ _ _ (strStartsWith_append _ name _ (by decide)))
        · rintro (h | h) <;> exact absurd h (by decide)

/-- C5 (counterexample): the claim as stated is false for the exception path.
The boundary failure string "Error in Dispatcher: timeout" (returned when the
underlying run raises "timeout") contains none of the five error indicators —
in particular not "Error:" — so the error-indicator rule does not fire on it:
the assessor's issues do not include the error-message finding. -/
theorem claim5_counterexample :
    executeAsync true true "Dispatcher" (RunOutcome.raises "timeout") =
      "Error in Dispatcher: timeout" ∧
    hasAnyOf "Error in Dispatcher: timeout" errorIndicators = false ∧
    "Document contains error messages" ∉
      (assessDocumentQuality "Error in Dispatcher: timeout").issues := by
  have hwc : pyWordCount "Error in Dispatcher: timeout" = 4 := by decide
  have hsec : hasAnyOf "Error in Dispatcher: timeout" sectionIndicators = false := by decide
  have herr : hasAnyOf "Error in Dispatcher: timeout" errorIndicators = false := by decide
  have hph : hasAnyOf "Error in Dispatcher: timeout" placeholderMarkers = false := by decide
  have hcf : completenessFactors "Error in Dispatcher: timeout" =
      [false, false, false, false, false] := by decide
  have hcs : completenessScore "Error in Dispatcher: timeout" = 0 := by
    unfold completenessScore
    rw [hcf]
    norm_num
  refine ⟨by decide, herr, ?_⟩
  have hval : (assessDocumentQuality "Error in Dispatcher: timeout").issues =
      ["Document too short (< 500 words)", "Missing standard document sections",
       "Low completeness score"] := by
    unfold assessDocumentQuality qaCompletenessRule qaPlaceholderRule qaErrorRule
      qaSectionsRule qaLengthRule qaInit
    simp only [hwc, hsec, herr, hph, hcs]
    norm_num
  rw [hval]
  decide

/-- C5 (witness): the amended theorem applied to the SDK-unavailable failure
path. -/
theorem claim5_witness :
    strStartsWith (executeAsync false true "Dispatcher" (RunOutcome.ok "hi")) "Error" = true ∧
    hasAnyOf (executeAsync false true "Dispatcher" (RunOutcome.ok "hi")) errorIndicators = true := by
  have h := claim5_boundary_amended false true "Dispatcher" (RunOutcome.ok "hi") (by decide)
  exact ⟨h.1, h.2 (Or.inl rfl)⟩

/-- C6: Phase 2 of the coordinator launches the code-analysis task exactly
when code input was supplied (non-empty directory or non-empty file list,
matching the source's truthiness test); when not launched the fixed
placeholder is substituted; when launched the researcher's response — even an
empty or error string — reaches the Phase 3 writer prompt verbatim, and the
prompt is built from both joined Phase 2 results. -/
theorem claim6_phase2_code_analysis (ctx : CoordinationContext)
    (request dispatchResult analystResponse researcherResponse : String) :
    launchesResearcher ctx = specCodeInputSupplied ctx ∧
    (launchesResearcher ctx = false →
      (phase2Results ctx analystResponse researcherResponse).2 = noCodePlaceholder) ∧
    (launchesResearcher ctx = true →
      (phase2Results ctx analystResponse researcherResponse).2 = researcherResponse) ∧
    (∃ p s, phase3WriterPrompt ctx request dispatchResult analystResponse researcherResponse =
      p ++ (phase2Results ctx analystResponse researcherResponse).2 ++ s) := by
  refine ⟨?_, ?_, ?_, ?_⟩
  · unfold launchesResearcher specCodeInputSupplied pyTruthyStr pyTruthyStrList
    cases ctx.code_directory <;> cases ctx.input_files <;> rfl
  · intro h
    unfold phase2Results
    rw [h]
    simp
  · intro h
    unfold phase2Results
    rw [h]
    simp
  · exact ⟨"Generate comprehensive documentation based on:\n\n=== USER REQUEST ===\n" ++
      request ++ "\n\n=== DISPATCH ANALYSIS ===\n" ++ dispatchResult ++
      "\n\n=== REQUIREMENTS (from Analyst) ===\n" ++ analystResponse ++
      "\n\n=== CODE ANALYSIS (from Researcher) ===\n",
      "\n\nGenerate complete, well-structured documentation in Markdown format.", rfl⟩

/-- C6 (witness): with a code directory supplied and a researcher error
string, the error text is used verbatim as the code-analysis result. -/
theorem claim6_witness :
    launchesResearcher ⟨some "/repo", none⟩ = true ∧
    (phase2Results ⟨some "/repo", none⟩ "reqs" "Error in Code Researcher: x").2 =
      "Error in Code Researcher: x" := by
  have h := claim6_phase2_code_analysis ⟨some "/repo", none⟩ "req" "disp" "reqs"
    "Error in Code Researcher: x"
  exact ⟨by decide, h.2.2.1 (by decide)⟩

/-- C7: a response stripping to fewer than 3 characters, with the incremented
empty-response counter still below the cap, makes `process_user_response`
re-ask exactly the stored `last_questions` and increment only
`empty_response_count`: history, gathered facts, round, confidence and the
question batch are all unchanged. -/
theorem claim7_short_response_frame (c : ConversationContext) (userResponse : String)
    (extracted : Option (List (String × String)))
    (hshort : (pyStrip userResponse).length < 3)
    (hcap : c.empty_response_count + 1 < c.max_empty_responses) :
    processUserResponse c userResponse extracted =
      (ProcessOutcome.needsClarification c.clarification_round c.last_questions,
       { c with empty_response_count := c.empty_response_count + 1 }) := by
  unfold processUserResponse
  dsimp only
  rw [if_pos hshort, if_neg (by omega : ¬ c.max_empty_responses ≤ c.empty_response_count + 1)]

/-- C7 (witness): the frame theorem applied to the one-character response "a"
on a fresh context. -/
theorem claim7_witness :
    processUserResponse (initialContext "docs" none none) "a" none =
      (ProcessOutcome.needsClarification 0 [],
       { initialContext "docs" none none with empty_response_count := 1 }) :=
  claim7_short_response_frame (initialContext "docs" none none) "a" none
    (by decide) (by decide)

/-- `update_info` with a non-empty value keeps all stored values non-empty. -/
theorem updateInfo_values_ne_empty (m : List (String × String)) (k v : String)
    (hm : ∀ p ∈ m, p.2 ≠ "") (hv : v ≠ "") :
    ∀ p ∈ updateInfo m k v, p.2 ≠ "" := by
  intro p hp
  unfold updateInfo at hp
  split_ifs at hp with h
  · rcases List.mem_map.1 hp with ⟨q, hq, rfl⟩
    split_ifs with hqk
    · exact hv
    · exact hm q hq
  · rcases List.mem_append.1 hp with h1 | h1
    · exact hm p h1
    · have hpk : p = (k, v) := by simpa using h1
      rw [hpk]
      exact hv

/-- The spam-detection step touches only the empty-response counter. -/
theorem spamCheckStep_fields (c : ConversationContext) (clean : String) :
    (spamCheckStep c clean).gathered_info = c.gathered_info ∧
    (spamCheckStep c clean).conversation_history = c.conversation_history ∧
    (spamCheckStep c clean).last_questions = c.last_questions := by
  unfold spamCheckStep
  split_ifs <;> exact ⟨rfl, rfl, rfl⟩

/-- Value of the counter after the spam-detection step. -/
theorem spamCheckStep_empty (c : ConversationContext) (clean : String) :
    (spamCheckStep c clean).empty_response_count =
      if unhelpfulDetected clean then c.empty_response_count + 1 else 0 := by
  unfold spamCheckStep
  split_ifs <;> rfl

/-- The fact-merge step keeps every stored value non-empty, provided the raw
response is non-empty (the merge loop itself rejects falsy values; the
`latest_response` fallback stores the raw response). -/
theorem mergeExtraction_values (c : ConversationContext) (userResponse : String)
    (extracted : Option (List (String × String)))
    (hc : ∀ p ∈ c.gathered_info, p.2 ≠ "") (hr : userResponse ≠ "") :
    ∀ p ∈ (mergeExtraction c userResponse extracted).gathered_info, p.2 ≠ "" := by
  cases extracted with
  | none => exact updateInfo_values_ne_empty _ _ _ hc hr
  | some info =>
    show ∀ p ∈ (info.foldl _ c).gathered_info, p.2 ≠ ""
    induction info generalizing c with
    | nil => exact hc
    | cons kv rest ih =>
      rw [List.foldl_cons]
      apply ih
      dsimp only
      split_ifs with hkv
      · refine updateInfo_values_ne_empty _ _ _ hc ?_
        intro he
        rw [he] at hkv
        exact absurd hkv (by decide)
      · exact hc

/-- The fact-merge step never touches the empty-response counter. -/
theorem mergeExtraction_empty_count (c : ConversationContext) (userResponse : String)
    (extracted : Option (List (String × String))) :
    (mergeExtraction c userResponse extracted).empty_response_count =
      c.empty_response_count := by
  cases extracted with
  | none => rfl
  | some info =>
    show (info.foldl _ c).empty_response_count = _
    induction info generalizing c with
    | nil => rfl
    | cons kv rest ih =>
      rw [List.foldl_cons, ih]
      split_ifs <;> rfl

/-- The fact-merge step never touches the history. -/
theorem mergeExtraction_history (c : ConversationContext) (userResponse : String)
    (extracted : Option (List (String × String))) :
    (mergeExtraction c userResponse extracted).conversation_history =
      c.conversation_history := by
  cases extracted with
  | none => rfl
  | some info =>
    show (info.foldl _ c).conversation_history = _
    induction info generalizing c with
    | nil => rfl
    | cons kv rest ih =>
      rw [List.foldl_cons, ih]
      split_ifs <;> rfl

/-- C8 (amended): only the `process_user_response` write paths filter
values, and only for falsiness: processing a user response preserves
"no empty fact values" (the merge rejects falsy values, the
`latest_response` fallback stores a response of stripped length at least 3).
Whitespace-only values pass that filter (see the counterexample), and the
self-critique storage path applies no check at all — storing an empty
critique puts an empty value into the facts — so no reachable-state
emptiness invariant holds; the rejection-at-write-time claim is true only of
the response-processing writes and only for the empty string. -/
theorem claim8_nonempty_values_amended (c : ConversationContext) (userResponse : String)
    (extracted : Option (List (String × String)))
    (hc : ∀ p ∈ c.gathered_info, p.2 ≠ "") :
    (∀ p ∈ (processUserResponse c userResponse extracted).2.gathered_info, p.2 ≠ "") ∧
    ("critique_iteration_1", "") ∈
      (storeCritiqueStep (initialContext "r" none none) "").gathered_info := by
  constructor
  · unfold processUserResponse
    dsimp only
    split_ifs with h1 h2
    · exact hc
    · exact hc
    · apply mergeExtraction_values
      · intro p hp
        apply hc
        have hg : (addExchangeStep (spamCheckStep c (pyStrip userResponse))
            userResponse).gathered_info = c.gathered_info := by
          show (spamCheckStep c (pyStrip userResponse)).gathered_info = c.gathered_info
          exact (spamCheckStep_fields c (pyStrip userResponse)).1
        rwa [hg] at hp
      · intro he
        subst he
        have h0 : (pyStrip "").length < 3 := by decide
        exact h1 h0
  · decide

/-- C8 (counterexample): the claim as stated is false.  The merge path's
truthiness filter accepts the whitespace-only value " " (a non-empty string),
so a reachable state stores a whitespace-only fact value. -/
theorem claim8_counterexample :
    (processUserResponse (initialContext "write docs please" none none)
        "we need API documentation" (some [("application_type", " ")])).2.gathered_info =
      [("application_type", " ")] ∧
    pyStrip " " = "" := ⟨by decide, by decide⟩

/-- C8 (witness): the amended theorem applied to a concrete extraction. -/
theorem claim8_witness : (("k", "value") : String × String).2 ≠ "" :=
  (claim8_nonempty_values_amended (initialContext "docs" none none)
    "tell me more about auth" (some [("k", "value")]) (by decide)).1 ("k", "value") (by decide)

/-- C9 (counterexample): the claim as stated is false.  The orchestrator's
pre-population path (`orchestrator.py` line 155) copies the dispatcher's
`clarification_questions` into `last_questions` without the `[:3]` cap, so a
four-question dispatch record yields a reachable state with
`last_questions` of length 4. -/
theorem claim9_counterexample :
    3 < (prepopulateLastQuestions (initialContext "doc" none none)
      ["q1", "q2", "q3", "q4"]).last_questions.length := by decide

/-- C9 (amended): the clarification engine's own question-batch replacements
(`_ask_intelligent_questions` and the `_ask_basic_questions` fallback) always
cap `last_questions` at three; only the orchestrator's dispatcher
pre-population path copies a batch uncapped. -/
theorem claim9_capped_amended (c : ConversationContext) (parsed : Option (List String)) :
    (askQuestionsStep c parsed).last_questions.length ≤ 3 := by
  unfold askQuestionsStep
  cases parsed with
  | some qs =>
    show (qs.take 3).length ≤ 3
    rw [List.length_take]
    omega
  | none =>
    show ((buildAdaptiveQuestions _).take 3).length ≤ 3
    rw [List.length_take]
    omega

/-- The spam-detection step does not change what `_get_last_questions`
returns. -/
theorem getLastQuestions_spamCheckStep (c : ConversationContext) (clean : String) :
    getLastQuestions (spamCheckStep c clean) = getLastQuestions c := by
  unfold getLastQuestions
  rw [(spamCheckStep_fields c clean).2.2, (spamCheckStep_fields c clean).2.1]

/-- C10 (amended): for a response of stripped length in [3, 20), the counter
is incremented exactly when the lowercased response contains one of the fixed
phrases as a substring (also embedded inside longer words such as "compass"),
and reset to 0 otherwise; in both cases the exchange is appended to the
history and fact extraction still runs.  (The original claim's example word
"nonstop" contains none of the phrases — see the counterexample.) -/
theorem claim10_unhelpful_amended (c : ConversationContext) (userResponse : String)
    (extracted : Option (List (String × String)))
    (h3 : 3 ≤ (pyStrip userResponse).length)
    (h20 : (pyStrip userResponse).length < 20) :
    (processUserResponse c userResponse extracted =
      (ProcessOutcome.continueConversation,
        mergeExtraction (addExchangeStep (spamCheckStep c (pyStrip userResponse)) userResponse)
          userResponse extracted)) ∧
    (unhelpfulDetected (pyStrip userResponse) =
      unhelpfulPatterns.any
        (fun p => listContains p.data (pyLower (pyStrip userResponse)).data)) ∧
    (unhelpfulPatterns.any
        (fun p => listContains p.data (pyLower (pyStrip userResponse)).data) = true →
      (processUserResponse c userResponse extracted).2.empty_response_count =
        c.empty_response_count + 1) ∧
    (unhelpfulPatterns.any
        (fun p => listContains p.data (pyLower (pyStrip userResponse)).data) = false →
      (processUserResponse c userResponse extracted).2.empty_response_count = 0) ∧
    (processUserResponse c userResponse extracted).2.conversation_history =
      c.conversation_history ++
        [⟨"System", joinQuestions (getLastQuestions c), userResponse⟩] := by
  have hnlt : ¬ (pyStrip userResponse).length < 3 := by omega
  have hmain : processUserResponse c userResponse extracted =
      (ProcessOutcome.continueConversation,
        mergeExtraction (addExchangeStep (spamCheckStep c (pyStrip userResponse)) userResponse)
          userResponse extracted) := by
    unfold processUserResponse
    dsimp only
    rw [if_neg hnlt]
  have hlen : (pyStrip userResponse).length < 20 := h20
  have hud : unhelpfulDetected (pyStrip userResponse) =
      unhelpfulPatterns.any
        (fun p => listContains p.data (pyLower (pyStrip userResponse)).data) := by
    unfold unhelpfulDetected
    rw [decide_eq_true hlen, Bool.and_true]
  have hcount : (processUserResponse c userResponse extracted).2.empty_response_count =
      if unhelpfulDetected (pyStrip userResponse) then c.empty_response_count + 1 else 0 := by
    rw [hmain]
    show (mergeExtraction _ _ _).empty_response_count = _
    rw [mergeExtraction_empty_count]
    show (spamCheckStep c (pyStrip userResponse)).empty_response_count = _
    exact spamCheckStep_empty c (pyStrip userResponse)
  refine ⟨hmain, hud, ?_, ?_, ?_⟩
  · intro hy
    rw [hcount, hud, hy]
    rfl
  · intro hn
    rw [hcount, hud, hn]
    rfl
  · rw [hmain]
    show (mergeExtraction _ _ _).conversation_history = _
    rw [mergeExtraction_history]
    show (spamCheckStep c (pyStrip userResponse)).conversation_history ++ _ = _
    rw [(spamCheckStep_fields c (pyStrip userResponse)).2.1,
      getLastQuestions_spamCheckStep]

/-- C10 (counterexample): the claim's example "nonstop" is wrong: it embeds
none of the eight phrases, so the code RESETS the counter to 0 (here from 1)
instead of incrementing it as the claim asserts. -/
theorem claim10_counterexample :
    unhelpfulPatterns.any (fun p => listContains p.data (pyLower "nonstop").data) = false ∧
    3 ≤ (pyStrip "nonstop").length ∧ (pyStrip "nonstop").length < 20 ∧
    (processUserResponse exContextOneEmpty "nonstop" (some [])).2.empty_response_count = 0 :=
  ⟨by decide, by decide, by decide, by decide⟩

/-- C10 (witness): "compass" (stripped length 7) embeds the phrase "pass", so
the counter is incremented from 1 to 2. -/
theorem claim10_witness :
    (processUserResponse exContextOneEmpty "compass" (some [])).2.empty_response_count =
      exContextOneEmpty.empty_response_count + 1 :=
  (claim10_unhelpful_amended exContextOneEmpty "compass" (some [])
    (by decide) (by decide)).2.2.1 (by decide)
